import Mathlib

/-!
The CUDA runtime shim of `ort-sys`: `cuda_stub.h`, `cuda_stub.c`,
`cuda_stub_linux.c`, `cuda_stub_windows.c`.

The three build variants expose one C surface.  Each variant lives in its own
namespace (`Stub`, `Linux`, `Windows`) and keeps the C names.

Modelling conventions.

* Pointers (data pointers, library handles, function pointers) are addresses in
  `Nat`; the C null pointer is `0`.
* `cudaStubError_t` is an integer-valued C enum.  A foreign function called
  through a slot may return any integer, so result codes are `Int`.
* Everything outside the binding record (caller memory, the state of the real
  runtime) is one value of an arbitrary type `W`, the world.  A `Machine W`
  says what an indirect call through an address does to the world.
* Every indirect call is recorded in a ghost log (`Outcome.calls`), and every
  loader call in `InitOutcome.loader`, so that "invoked once", "never invoked"
  and "tried in this order" can be stated.
-/

namespace CudaStub

/-! ## `cuda_stub.h` -/

/-- The C enum type `cudaStubError_t`. -/
abbrev cudaStubError_t := Int

/-- Enumerator `cudaStubSuccess = 0`. -/
def cudaStubSuccess : cudaStubError_t := 0

/-- Enumerator `cudaStubErrorInitializationError = 3`. -/
def cudaStubErrorInitializationError : cudaStubError_t := 3

/-- Enumerator `cudaStubErrorUnknown = 999`. -/
def cudaStubErrorUnknown : cudaStubError_t := 999

/-- The C null pointer. -/
abbrev NULL : Nat := 0

/-! ## Indirect calls and their log -/

/-- One indirect call made by the shim: the address called (`fn`) and the
arguments passed, one constructor per function-pointer signature. -/
inductive Call where
  | cudaMalloc (fn devPtr size : Nat)
  | cudaFree (fn devPtr : Nat)
  | cudaGetDeviceCount (fn count : Nat)
  | cudaGetDeviceProperties (fn prop : Nat) (device : Int)
  | cudaMallocManaged (fn devPtr size flags : Nat)
  deriving DecidableEq, Repr

/-- What calling the code at an address does, for each of the five
function-pointer signatures of `struct library`: the first argument is the
address called, then the C arguments, then the world before the call; the
result is the returned code and the world after the call. -/
structure Machine (W : Type) where
  /-- A call through `cudaStubError_t (*)(void **, size_t)`. -/
  callMalloc : Nat → Nat → Nat → W → cudaStubError_t × W
  /-- A call through `cudaStubError_t (*)(void *)`. -/
  callFree : Nat → Nat → W → cudaStubError_t × W
  /-- A call through `cudaStubError_t (*)(int *)`. -/
  callGetDeviceCount : Nat → Nat → W → cudaStubError_t × W
  /-- A call through `cudaStubError_t (*)(struct cudaStubDeviceProp *, int)`. -/
  callGetDeviceProperties : Nat → Nat → Int → W → cudaStubError_t × W
  /-- A call through `cudaStubError_t (*)(void **, size_t, unsigned int)`. -/
  callMallocManaged : Nat → Nat → Nat → Nat → W → cudaStubError_t × W

/-- The observable result of one shim operation: the returned code, the world
after it, and the indirect calls it made, in order. -/
structure Outcome (W : Type) where
  ret : cudaStubError_t
  world : W
  calls : List Call

/-- One call into the platform loader. -/
inductive LoaderCall where
  | dlopen (file : String)
  | dlsym (handle : Nat) (symbol : String)
  | dlerror
  | LoadLibrary (file : String)
  | GetProcAddress (handle : Nat) (symbol : String)
  deriving DecidableEq, Repr

/-- The result of `cudaStubInit`: the binding record after the call and the
loader calls made, in order. -/
structure InitOutcome (L : Type) where
  lib : L
  loader : List LoaderCall

/-! ## `cuda_stub.c`: the always-stub variant -/

namespace Stub

variable {W : Type}

/-- `cudaStubGetDeviceCount` of `cuda_stub.c`. -/
def cudaStubGetDeviceCount (_count : Nat) (w : W) : Outcome W :=
  ⟨cudaStubErrorInitializationError, w, []⟩

/-- `cudaStubGetDeviceProperties` of `cuda_stub.c`. -/
def cudaStubGetDeviceProperties (_prop : Nat) (_device : Int) (w : W) : Outcome W :=
  ⟨cudaStubErrorInitializationError, w, []⟩

/-- `cudaStubInit` of `cuda_stub.c`: an empty body. -/
def cudaStubInit (w : W) : W := w

end Stub

/-! ## `cuda_stub_linux.c`: the POSIX loader -/

namespace Linux

variable {W : Type}

/-- The record `struct library` of `cuda_stub_linux.c`. -/
structure library where
  force_managed_memory : Int
  cudaMalloc : Nat
  cudaFree : Nat
  cudaGetDeviceCount : Nat
  cudaGetDeviceProperties : Nat
  cudaMallocManaged : Nat
  deriving DecidableEq, Repr

/-- The static `g_library` at process start: C zero-initialises it. -/
def g_library : library := ⟨0, NULL, NULL, NULL, NULL, NULL⟩

/-- Lines 24-27 of `cudaMalloc`: the plain-slot tail, reached directly or by
the fallthrough; `w` and `calls` are the world and the log on arrival. -/
def cudaMalloc_plain (m : Machine W) (g : library) (devPtr size : Nat) (w : W)
    (calls : List Call) : Outcome W :=
  if g.cudaMalloc ≠ NULL then
    let r := m.callMalloc g.cudaMalloc devPtr size w
    ⟨r.1, r.2, calls ++ [Call.cudaMalloc g.cudaMalloc devPtr size]⟩
  else
    ⟨cudaStubErrorInitializationError, w, calls⟩

/-- `cudaMalloc` of `cuda_stub_linux.c`. -/
def cudaMalloc (m : Machine W) (g : library) (devPtr size : Nat) (w : W) : Outcome W :=
  if g.force_managed_memory ≠ 0 ∧ g.cudaMallocManaged ≠ NULL then
    let r := m.callMallocManaged g.cudaMallocManaged devPtr size 0x01 w
    let calls := [Call.cudaMallocManaged g.cudaMallocManaged devPtr size 0x01]
    if cudaStubSuccess = r.1 then
      ⟨cudaStubSuccess, r.2, calls⟩
    else
      cudaMalloc_plain m g devPtr size r.2 calls
  else
    cudaMalloc_plain m g devPtr size w []

/-- `cudaFree` of `cuda_stub_linux.c`. -/
def cudaFree (m : Machine W) (g : library) (devPtr : Nat) (w : W) : Outcome W :=
  if g.cudaFree ≠ NULL then
    let r := m.callFree g.cudaFree devPtr w
    ⟨r.1, r.2, [Call.cudaFree g.cudaFree devPtr]⟩
  else
    ⟨cudaStubErrorInitializationError, w, []⟩

/-- `cudaStubGetDeviceCount` of `cuda_stub_linux.c`. -/
def cudaStubGetDeviceCount (m : Machine W) (g : library) (count : Nat) (w : W) : Outcome W :=
  if g.cudaGetDeviceCount ≠ NULL then
    let r := m.callGetDeviceCount g.cudaGetDeviceCount count w
    ⟨r.1, r.2, [Call.cudaGetDeviceCount g.cudaGetDeviceCount count]⟩
  else
    ⟨cudaStubErrorInitializationError, w, []⟩

/-- `cudaStubGetDeviceProperties` of `cuda_stub_linux.c`. -/
def cudaStubGetDeviceProperties (m : Machine W) (g : library) (prop : Nat) (device : Int)
    (w : W) : Outcome W :=
  if g.cudaGetDeviceProperties ≠ NULL then
    let r := m.callGetDeviceProperties g.cudaGetDeviceProperties prop device w
    ⟨r.1, r.2, [Call.cudaGetDeviceProperties g.cudaGetDeviceProperties prop device]⟩
  else
    ⟨cudaStubErrorInitializationError, w, []⟩

/-- The dynamic-linking environment of one `cudaStubInit` call: which file
names `dlopen` opens (the handle, `NULL` when it fails; the mode argument is
the same constant at the only call site) and what `dlsym` finds in a handle
(the address, `NULL` when the symbol is missing). -/
structure Env where
  dlopen : String → Nat
  dlsym : Nat → String → Nat

/-- `cudaStubInit` of `cuda_stub_linux.c`. -/
def cudaStubInit (env : Env) (g : library) : InitOutcome library :=
  let handle := env.dlopen "libcudart.so"
  if handle = NULL then
    ⟨g, [LoaderCall.dlopen "libcudart.so"]⟩
  else
    let g := { g with cudaMalloc := env.dlsym handle "cudaMalloc" }
    let g := { g with cudaFree := env.dlsym handle "cudaFree" }
    let g := { g with cudaGetDeviceCount := env.dlsym handle "cudaGetDeviceCount" }
    let g := { g with cudaGetDeviceProperties := env.dlsym handle "cudaGetDeviceProperties" }
    let g := { g with cudaMallocManaged := env.dlsym handle "cudaMallocManaged" }
    let g := if g.cudaMallocManaged ≠ NULL then { g with force_managed_memory := 1 } else g
    ⟨g, [LoaderCall.dlopen "libcudart.so",
         LoaderCall.dlsym handle "cudaMalloc",
         LoaderCall.dlsym handle "cudaFree",
         LoaderCall.dlsym handle "cudaGetDeviceCount",
         LoaderCall.dlsym handle "cudaGetDeviceProperties",
         LoaderCall.dlsym handle "cudaMallocManaged",
         LoaderCall.dlerror]⟩

/-- One call into the POSIX surface; a `cudaStubInit` call carries what is on
disk at that moment (whether `libcudart.so` is there, and what it exports). -/
inductive Action where
  | cudaStubInit (disk : Env)
  | cudaMalloc (devPtr size : Nat)
  | cudaFree (devPtr : Nat)
  | cudaStubGetDeviceCount (count : Nat)
  | cudaStubGetDeviceProperties (prop : Nat) (device : Int)

/-- A shared object the process holds open: its handle and, for each symbol
name, the address it exports (`NULL`: not exported). -/
structure Loaded where
  handle : Nat
  exports : String → Nat

/-- What `dlopen` and `dlsym` answer inside the process.  `cudaStubInit` never
calls `dlclose` (nor does any other function of `cuda_stub_linux.c`), so an
object it opened stays loaded: a later `dlopen "libcudart.so"` returns that
object's handle and `dlsym` on that handle finds that object's symbols,
whatever is on disk by then.  With nothing loaded yet the answers are those
of the disk. -/
def Env.inProcess (disk : Env) : Option Loaded → Env
  | none => disk
  | some obj =>
    { dlopen := fun file => if file = "libcudart.so" then obj.handle else disk.dlopen file
      dlsym := fun h symbol => if h = obj.handle then obj.exports symbol else disk.dlsym h symbol }

/-- The object held open after a `cudaStubInit` call: the one already held, or
else the one the call opens from disk, if it opens. -/
def Env.load (disk : Env) : Option Loaded → Option Loaded
  | some obj => some obj
  | none =>
    if disk.dlopen "libcudart.so" = NULL then none
    else some ⟨disk.dlopen "libcudart.so", disk.dlsym (disk.dlopen "libcudart.so")⟩

/-- The process: the static binding record, the world, and the object held
open by the dynamic linker, if any. -/
structure Process (W : Type) where
  lib : library
  world : W
  loaded : Option Loaded

/-- The process at start: the zero-initialised record, nothing loaded. -/
def start (w : W) : Process W := ⟨g_library, w, none⟩

/-- The effect of one surface call on the process. -/
def step (m : Machine W) (p : Process W) : Action → Process W
  | Action.cudaStubInit disk =>
      ⟨(cudaStubInit (disk.inProcess p.loaded) p.lib).lib, p.world, disk.load p.loaded⟩
  | Action.cudaMalloc devPtr size =>
      ⟨p.lib, (cudaMalloc m p.lib devPtr size p.world).world, p.loaded⟩
  | Action.cudaFree devPtr => ⟨p.lib, (cudaFree m p.lib devPtr p.world).world, p.loaded⟩
  | Action.cudaStubGetDeviceCount count =>
      ⟨p.lib, (cudaStubGetDeviceCount m p.lib count p.world).world, p.loaded⟩
  | Action.cudaStubGetDeviceProperties prop device =>
      ⟨p.lib, (cudaStubGetDeviceProperties m p.lib prop device p.world).world, p.loaded⟩

/-- The process after a sequence of surface calls. -/
def run (m : Machine W) (p : Process W) (acts : List Action) : Process W :=
  acts.foldl (step m) p

/-- The binding record agrees with the dynamic linker: a set policy flag comes
with a resolved managed slot; with nothing loaded the flag is clear; with an
object loaded its handle is not `NULL` and the managed slot holds what that
object exports. -/
def Process.agrees (p : Process W) : Prop :=
  (p.lib.force_managed_memory ≠ 0 → p.lib.cudaMallocManaged ≠ NULL) ∧
  (p.loaded = none → p.lib.force_managed_memory = 0) ∧
  (∀ obj, p.loaded = some obj →
    obj.handle ≠ NULL ∧ p.lib.cudaMallocManaged = obj.exports "cudaMallocManaged")

end Linux

/-! ## `cuda_stub_windows.c`: the Windows loader -/

namespace Windows

variable {W : Type}

/-- The record `struct library` of `cuda_stub_windows.c`. -/
structure library where
  cudaGetDeviceCount : Nat
  cudaGetDeviceProperties : Nat
  deriving DecidableEq, Repr

/-- The static `g_library` at process start: C zero-initialises it. -/
def g_library : library := ⟨NULL, NULL⟩

/-- `cudaStubGetDeviceCount` of `cuda_stub_windows.c`. -/
def cudaStubGetDeviceCount (m : Machine W) (g : library) (count : Nat) (w : W) : Outcome W :=
  if g.cudaGetDeviceCount ≠ NULL then
    let r := m.callGetDeviceCount g.cudaGetDeviceCount count w
    ⟨r.1, r.2, [Call.cudaGetDeviceCount g.cudaGetDeviceCount count]⟩
  else
    ⟨cudaStubErrorInitializationError, w, []⟩

/-- `cudaStubGetDeviceProperties` of `cuda_stub_windows.c`. -/
def cudaStubGetDeviceProperties (m : Machine W) (g : library) (prop : Nat) (device : Int)
    (w : W) : Outcome W :=
  if g.cudaGetDeviceProperties ≠ NULL then
    let r := m.callGetDeviceProperties g.cudaGetDeviceProperties prop device w
    ⟨r.1, r.2, [Call.cudaGetDeviceProperties g.cudaGetDeviceProperties prop device]⟩
  else
    ⟨cudaStubErrorInitializationError, w, []⟩

/-- The loader environment of one `cudaStubInit` call: which file names
`LoadLibrary` loads (the module handle, `NULL` when it fails) and what
`GetProcAddress` finds in a module (`NULL` when the symbol is missing). -/
structure Env where
  LoadLibrary : String → Nat
  GetProcAddress : Nat → String → Nat

/-- `cudaStubInit` of `cuda_stub_windows.c`. -/
def cudaStubInit (env : Env) (g : library) : InitOutcome library :=
  let handle := env.LoadLibrary "cudart64_110.dll"
  let loader := [LoaderCall.LoadLibrary "cudart64_110.dll"]
  let (handle, loader) :=
    if handle = NULL then
      (env.LoadLibrary "cudart64_102.dll", loader ++ [LoaderCall.LoadLibrary "cudart64_102.dll"])
    else (handle, loader)
  let (handle, loader) :=
    if handle = NULL then
      (env.LoadLibrary "cudart64_101.dll", loader ++ [LoaderCall.LoadLibrary "cudart64_101.dll"])
    else (handle, loader)
  let (handle, loader) :=
    if handle = NULL then
      (env.LoadLibrary "cudart64_100.dll", loader ++ [LoaderCall.LoadLibrary "cudart64_100.dll"])
    else (handle, loader)
  if handle = NULL then
    ⟨g, loader⟩
  else
    let g := { g with cudaGetDeviceCount := env.GetProcAddress handle "cudaGetDeviceCount" }
    let g := { g with
      cudaGetDeviceProperties := env.GetProcAddress handle "cudaGetDeviceProperties" }
    ⟨g, loader ++ [LoaderCall.GetProcAddress handle "cudaGetDeviceCount",
                   LoaderCall.GetProcAddress handle "cudaGetDeviceProperties"]⟩

/-- The candidate file names, in the order the specification gives them (most
recent first). -/
def candidateNames : List String :=
  ["cudart64_110.dll", "cudart64_102.dll", "cudart64_101.dll", "cudart64_100.dll"]

/-- The earliest candidate name that loads in an environment, if any, in the
words of the specification: a search through `candidateNames` in order. -/
def firstLoadable (env : Env) : Option String :=
  candidateNames.find? (fun name => decide (env.LoadLibrary name ≠ NULL))

end Windows

/-! ## Concrete worlds, runtimes and environments

A small concrete instance on which the definitions above can be evaluated. -/

namespace Demo

/-- A concrete world: the log of the stores made so far, latest first, each an
address and the value stored there. -/
abbrev World := List (Nat × Int)

/-- A concrete runtime.  Code lives at five addresses: `0x1000` reports two
devices, `0x2000` fills the record of device `0` and rejects other ordinals
with code `101`, `0x3000` allocates, `0x4000` frees, `0x5000` allocates
managed memory when attached globally.  Any other address fails without
storing anything. -/
def machine : Machine World where
  callMalloc fn devPtr size w :=
    if fn = 0x3000 then (0, (devPtr, 0x7000 + (size : Int)) :: w) else (2, w)
  callFree fn devPtr w :=
    if fn = 0x4000 then (0, (devPtr, 0) :: w) else (1, w)
  callGetDeviceCount fn count w :=
    if fn = 0x1000 then (0, (count, 2) :: w) else (35, w)
  callGetDeviceProperties fn prop device w :=
    if fn = 0x2000 then (if device = 0 then (0, (prop, 1) :: w) else (101, w)) else (35, w)
  callMallocManaged fn devPtr size flags w :=
    if fn = 0x5000 ∧ flags = 1 then (0, (devPtr, 0x9000 + (size : Int)) :: w) else (2, w)

/-- A POSIX environment in which `libcudart.so` opens as handle `handle`
(`NULL`: it does not open) and exports the listed symbols. -/
def linuxEnv (handle : Nat) (exports : List (String × Nat)) : Linux.Env where
  dlopen file := if file = "libcudart.so" then handle else NULL
  dlsym h symbol := if h = handle then (exports.lookup symbol).getD NULL else NULL

/-- A Windows environment: each loadable file name with its module handle and
the symbols that module exports. -/
def windowsEnv (modules : List (String × Nat × List (String × Nat))) : Windows.Env where
  LoadLibrary file := ((modules.lookup file).map Prod.fst).getD NULL
  GetProcAddress h symbol :=
    (((modules.find? (fun md => md.2.1 = h)).map (fun md => md.2.2.lookup symbol)).join).getD NULL

/-- Every expected symbol, at the addresses of `machine`. -/
def allSymbols : List (String × Nat) :=
  [("cudaMalloc", 0x3000), ("cudaFree", 0x4000), ("cudaGetDeviceCount", 0x1000),
   ("cudaGetDeviceProperties", 0x2000), ("cudaMallocManaged", 0x5000)]

/-- The expected symbols without the managed allocator. -/
def plainSymbols : List (String × Nat) :=
  [("cudaMalloc", 0x3000), ("cudaFree", 0x4000), ("cudaGetDeviceCount", 0x1000),
   ("cudaGetDeviceProperties", 0x2000)]

/-- A POSIX binding record with every slot resolved and the policy flag set. -/
def linuxBound : Linux.library := ⟨1, 0x3000, 0x4000, 0x1000, 0x2000, 0x5000⟩

/-- A POSIX binding record whose managed slot points at failing code. -/
def linuxManagedFails : Linux.library := ⟨1, 0x3000, 0x4000, 0x1000, 0x2000, 0x5001⟩

/-- A POSIX binding record whose managed slot points at failing code and whose
plain allocation slot is unresolved. -/
def linuxManagedOnly : Linux.library := ⟨1, NULL, NULL, NULL, NULL, 0x5001⟩

/-- A Windows binding record with both slots resolved. -/
def windowsBound : Windows.library := ⟨0x1000, 0x2000⟩

/-- Windows modules: the two newest names do not load, `cudart64_101.dll` loads
as module `0x20` exporting the count query only, `cudart64_100.dll` loads as
module `0x30` exporting both queries. -/
def windowsModules : List (String × Nat × List (String × Nat)) :=
  [("cudart64_101.dll", 0x20, [("cudaGetDeviceCount", 0x1000)]),
   ("cudart64_100.dll", 0x30,
      [("cudaGetDeviceCount", 0x1100), ("cudaGetDeviceProperties", 0x2000)])]

/-- A POSIX call sequence under a changing disk: the library is absent at the
first `cudaStubInit`, exports every symbol at the second, and has lost
`cudaMallocManaged` at the third. -/
def linuxSession : List Linux.Action :=
  [Linux.Action.cudaStubInit (linuxEnv NULL allSymbols),
   Linux.Action.cudaStubGetDeviceCount 72,
   Linux.Action.cudaStubInit (linuxEnv 0x10 allSymbols),
   Linux.Action.cudaMalloc 64 1024,
   Linux.Action.cudaStubInit (linuxEnv 0x10 plainSymbols),
   Linux.Action.cudaFree 64]

end Demo

/-! ## Theorems -/

/-- C1: in the POSIX and Windows variants each single-slot operation
(`cudaStubGetDeviceCount`, `cudaStubGetDeviceProperties`, and on POSIX
`cudaFree`), in every binding state and for every argument, either finds its
own slot resolved, calls it exactly once with the caller's arguments and
returns that call's code and resulting world unchanged, or finds it
unresolved, returns `cudaStubErrorInitializationError`, calls nothing and
leaves the world (the caller's output storage included) as it was. -/
theorem single_slot_forwarding {W : Type} (m : Machine W) (gl : Linux.library)
    (gw : Windows.library) (ptr : Nat) (device : Int) (w : W) :
    (gl.cudaGetDeviceCount ≠ NULL →
      Linux.cudaStubGetDeviceCount m gl ptr w =
        ⟨(m.callGetDeviceCount gl.cudaGetDeviceCount ptr w).1,
         (m.callGetDeviceCount gl.cudaGetDeviceCount ptr w).2,
         [Call.cudaGetDeviceCount gl.cudaGetDeviceCount ptr]⟩) ∧
    (gl.cudaGetDeviceCount = NULL →
      Linux.cudaStubGetDeviceCount m gl ptr w = ⟨cudaStubErrorInitializationError, w, []⟩) ∧
    (gl.cudaGetDeviceProperties ≠ NULL →
      Linux.cudaStubGetDeviceProperties m gl ptr device w =
        ⟨(m.callGetDeviceProperties gl.cudaGetDeviceProperties ptr device w).1,
         (m.callGetDeviceProperties gl.cudaGetDeviceProperties ptr device w).2,
         [Call.cudaGetDeviceProperties gl.cudaGetDeviceProperties ptr device]⟩) ∧
    (gl.cudaGetDeviceProperties = NULL →
      Linux.cudaStubGetDeviceProperties m gl ptr device w =
        ⟨cudaStubErrorInitializationError, w, []⟩) ∧
    (gl.cudaFree ≠ NULL →
      Linux.cudaFree m gl ptr w =
        ⟨(m.callFree gl.cudaFree ptr w).1, (m.callFree gl.cudaFree ptr w).2,
         [Call.cudaFree gl.cudaFree ptr]⟩) ∧
    (gl.cudaFree = NULL →
      Linux.cudaFree m gl ptr w = ⟨cudaStubErrorInitializationError, w, []⟩) ∧
    (gw.cudaGetDeviceCount ≠ NULL →
      Windows.cudaStubGetDeviceCount m gw ptr w =
        ⟨(m.callGetDeviceCount gw.cudaGetDeviceCount ptr w).1,
         (m.callGetDeviceCount gw.cudaGetDeviceCount ptr w).2,
         [Call.cudaGetDeviceCount gw.cudaGetDeviceCount ptr]⟩) ∧
    (gw.cudaGetDeviceCount = NULL →
      Windows.cudaStubGetDeviceCount m gw ptr w = ⟨cudaStubErrorInitializationError, w, []⟩) ∧
    (gw.cudaGetDeviceProperties ≠ NULL →
      Windows.cudaStubGetDeviceProperties m gw ptr device w =
        ⟨(m.callGetDeviceProperties gw.cudaGetDeviceProperties ptr device w).1,
         (m.callGetDeviceProperties gw.cudaGetDeviceProperties ptr device w).2,
         [Call.cudaGetDeviceProperties gw.cudaGetDeviceProperties ptr device]⟩) ∧
    (gw.cudaGetDeviceProperties = NULL →
      Windows.cudaStubGetDeviceProperties m gw ptr device w =
        ⟨cudaStubErrorInitializationError, w, []⟩) := by
  refine ⟨?_, ?_, ?_, ?_, ?_, ?_, ?_, ?_, ?_, ?_⟩ <;> intro h <;>
    simp [Linux.cudaStubGetDeviceCount, Linux.cudaStubGetDeviceProperties, Linux.cudaFree,
      Windows.cudaStubGetDeviceCount, Windows.cudaStubGetDeviceProperties, h]

/-- C1 at a concrete input: with every slot resolved, the POSIX count query on
the concrete runtime stores the count `2` at the caller's address `64`,
returns `0`, and made the one call to address `0x1000`. -/
theorem single_slot_forwarding_witness :
    Demo.linuxBound.cudaGetDeviceCount ≠ NULL ∧
    Linux.cudaStubGetDeviceCount Demo.machine Demo.linuxBound 64 [] =
      ⟨0, [(64, 2)], [Call.cudaGetDeviceCount 0x1000 64]⟩ :=
  ⟨by decide,
   (single_slot_forwarding Demo.machine Demo.linuxBound Demo.windowsBound 64 0 []).1
     (by decide)⟩

/-- C2: in the stub variant `cudaStubGetDeviceCount` and
`cudaStubGetDeviceProperties` return `cudaStubErrorInitializationError` for
every input, call nothing and leave the world (so the count and the
properties buffer) exactly as it was, and `cudaStubInit` changes no state. -/
theorem stub_always_initialization_error {W : Type} (count prop : Nat) (device : Int) (w : W) :
    Stub.cudaStubGetDeviceCount count w = ⟨cudaStubErrorInitializationError, w, []⟩ ∧
    Stub.cudaStubGetDeviceProperties prop device w =
      ⟨cudaStubErrorInitializationError, w, []⟩ ∧
    Stub.cudaStubInit w = w ∧
    cudaStubErrorInitializationError = 3 :=
  ⟨rfl, rfl, rfl, rfl⟩

/-- C3: POSIX `cudaMalloc`, managed path.  For every size, when
`force_managed_memory` is set, the managed slot is resolved and the managed
call (made with the caller's pointer and size and the flag `0x01`) reports
`cudaStubSuccess`, `cudaMalloc` returns `cudaStubSuccess` with the world the
managed call left (the pointer it wrote included), the managed call is the
only call made, and the plain slot is not called, resolved or not. -/
theorem cudaMalloc_managed_path {W : Type} (m : Machine W) (g : Linux.library)
    (devPtr size : Nat) (w : W)
    (hflag : g.force_managed_memory ≠ 0)
    (hslot : g.cudaMallocManaged ≠ NULL)
    (hok : (m.callMallocManaged g.cudaMallocManaged devPtr size 0x01 w).1 = cudaStubSuccess) :
    Linux.cudaMalloc m g devPtr size w =
      ⟨cudaStubSuccess, (m.callMallocManaged g.cudaMallocManaged devPtr size 0x01 w).2,
       [Call.cudaMallocManaged g.cudaMallocManaged devPtr size 0x01]⟩ ∧
    ∀ fn p n, Call.cudaMalloc fn p n ∉ (Linux.cudaMalloc m g devPtr size w).calls := by
  have h : Linux.cudaMalloc m g devPtr size w =
      ⟨cudaStubSuccess, (m.callMallocManaged g.cudaMallocManaged devPtr size 0x01 w).2,
       [Call.cudaMallocManaged g.cudaMallocManaged devPtr size 0x01]⟩ := by
    simp [Linux.cudaMalloc, hflag, hslot, hok]
  refine ⟨h, ?_⟩
  intro fn p n
  rw [h]
  simp

/-- C3 at a concrete input (end-to-end scenario 3): with every slot resolved,
a managed allocation of 1024 bytes succeeds, stores the pointer at the
caller's address `64`, and the plain allocator at `0x3000` is not called. -/
theorem cudaMalloc_managed_path_witness :
    Demo.linuxBound.force_managed_memory ≠ 0 ∧
    Demo.linuxBound.cudaMallocManaged ≠ NULL ∧
    Demo.linuxBound.cudaMalloc ≠ NULL ∧
    Linux.cudaMalloc Demo.machine Demo.linuxBound 64 1024 [] =
      ⟨cudaStubSuccess, [(64, 0x9000 + 1024)], [Call.cudaMallocManaged 0x5000 64 1024 0x01]⟩ :=
  ⟨by decide, by decide, by decide,
   (cudaMalloc_managed_path Demo.machine Demo.linuxBound 64 1024 []
     (by decide) (by decide) (by decide)).1⟩

/-- C4: POSIX `cudaMalloc`, fallback.  For every `n > 0`, when
`force_managed_memory` is set, the managed slot is resolved but its call
reports a code other than `cudaStubSuccess`, and the plain slot is resolved,
`cudaMalloc` calls the plain slot with the same pointer and size (in the world
the managed call left) and returns exactly the plain call's code and world;
so it returns `cudaStubSuccess` whenever the plain call does. -/
theorem cudaMalloc_fallback {W : Type} (m : Machine W) (g : Linux.library)
    (devPtr n : Nat) (w : W)
    (hn : 0 < n)
    (hflag : g.force_managed_memory ≠ 0)
    (hslot : g.cudaMallocManaged ≠ NULL)
    (hfail : (m.callMallocManaged g.cudaMallocManaged devPtr n 0x01 w).1 ≠ cudaStubSuccess)
    (hplain : g.cudaMalloc ≠ NULL) :
    Linux.cudaMalloc m g devPtr n w =
      ⟨(m.callMalloc g.cudaMalloc devPtr n
          (m.callMallocManaged g.cudaMallocManaged devPtr n 0x01 w).2).1,
       (m.callMalloc g.cudaMalloc devPtr n
          (m.callMallocManaged g.cudaMallocManaged devPtr n 0x01 w).2).2,
       [Call.cudaMallocManaged g.cudaMallocManaged devPtr n 0x01,
        Call.cudaMalloc g.cudaMalloc devPtr n]⟩ ∧
    ((m.callMalloc g.cudaMalloc devPtr n
          (m.callMallocManaged g.cudaMallocManaged devPtr n 0x01 w).2).1 = cudaStubSuccess →
      (Linux.cudaMalloc m g devPtr n w).ret = cudaStubSuccess) := by
  have _ := hn
  have hne : ¬ cudaStubSuccess = (m.callMallocManaged g.cudaMallocManaged devPtr n 0x01 w).1 :=
    fun h => hfail h.symm
  have h : Linux.cudaMalloc m g devPtr n w =
      ⟨(m.callMalloc g.cudaMalloc devPtr n
          (m.callMallocManaged g.cudaMallocManaged devPtr n 0x01 w).2).1,
       (m.callMalloc g.cudaMalloc devPtr n
          (m.callMallocManaged g.cudaMallocManaged devPtr n 0x01 w).2).2,
       [Call.cudaMallocManaged g.cudaMallocManaged devPtr n 0x01,
        Call.cudaMalloc g.cudaMalloc devPtr n]⟩ := by
    simp [Linux.cudaMalloc, Linux.cudaMalloc_plain, hflag, hslot, hne, hplain]
  refine ⟨h, ?_⟩
  intro hs
  rw [h]
  exact hs

/-- C4 at a concrete input: the managed slot points at code that fails with
code `2`, the plain slot at the working allocator; `cudaMalloc` of 1024 bytes
calls both in that order and returns the plain call's success and pointer. -/
theorem cudaMalloc_fallback_witness :
    (Demo.machine.callMallocManaged Demo.linuxManagedFails.cudaMallocManaged 64 1024 0x01 []).1
      = 2 ∧
    Linux.cudaMalloc Demo.machine Demo.linuxManagedFails 64 1024 [] =
      ⟨cudaStubSuccess, [(64, 0x7000 + 1024)],
       [Call.cudaMallocManaged 0x5001 64 1024 0x01, Call.cudaMalloc 0x3000 64 1024]⟩ :=
  ⟨by decide,
   (cudaMalloc_fallback Demo.machine Demo.linuxManagedFails 64 1024 []
     (by decide) (by decide) (by decide) (by decide) (by decide)).1⟩

/-- C5, the claim refuted at a concrete input.  The managed slot points at
code that fails with code `2`.  With the plain slot unresolved `cudaMalloc`
calls the managed code and returns `cudaStubErrorInitializationError`, not
`2`; with the plain slot resolved it calls both and returns
`cudaStubSuccess`, not `2`. -/
theorem error_pass_through_counterexample :
    (Demo.machine.callMallocManaged 0x5001 64 1024 0x01 []).1 = 2 ∧
    (Linux.cudaMalloc Demo.machine Demo.linuxManagedOnly 64 1024 []).calls =
      [Call.cudaMallocManaged 0x5001 64 1024 0x01] ∧
    (Linux.cudaMalloc Demo.machine Demo.linuxManagedOnly 64 1024 []).ret =
      cudaStubErrorInitializationError ∧
    (Linux.cudaMalloc Demo.machine Demo.linuxManagedOnly 64 1024 []).ret ≠
      (Demo.machine.callMallocManaged 0x5001 64 1024 0x01 []).1 ∧
    (Linux.cudaMalloc Demo.machine Demo.linuxManagedFails 64 1024 []).calls =
      [Call.cudaMallocManaged 0x5001 64 1024 0x01, Call.cudaMalloc 0x3000 64 1024] ∧
    (Linux.cudaMalloc Demo.machine Demo.linuxManagedFails 64 1024 []).ret = cudaStubSuccess ∧
    (Linux.cudaMalloc Demo.machine Demo.linuxManagedFails 64 1024 []).ret ≠
      (Demo.machine.callMallocManaged 0x5001 64 1024 0x01 []).1 := by
  decide

/-- C5 as amended.  For `cudaStubGetDeviceCount`, `cudaStubGetDeviceProperties`
(POSIX and Windows) and POSIX `cudaFree`: whenever the slot is resolved and
its call returns a code other than `cudaStubSuccess`, the operation returns
that code.  For POSIX `cudaMalloc`: whenever the plain allocation call is made
(directly, or after a failed managed call) and returns a code other than
`cudaStubSuccess`, `cudaMalloc` returns that code; the code of a failed managed
call is not returned, and when the plain slot is unresolved after a failed
managed call the result is `cudaStubErrorInitializationError`. -/
theorem error_pass_through_amended {W : Type} (m : Machine W) (gl : Linux.library)
    (gw : Windows.library) (ptr size : Nat) (device : Int) (w : W) :
    (gl.cudaGetDeviceCount ≠ NULL →
      (m.callGetDeviceCount gl.cudaGetDeviceCount ptr w).1 ≠ cudaStubSuccess →
      (Linux.cudaStubGetDeviceCount m gl ptr w).ret =
        (m.callGetDeviceCount gl.cudaGetDeviceCount ptr w).1) ∧
    (gl.cudaGetDeviceProperties ≠ NULL →
      (m.callGetDeviceProperties gl.cudaGetDeviceProperties ptr device w).1 ≠ cudaStubSuccess →
      (Linux.cudaStubGetDeviceProperties m gl ptr device w).ret =
        (m.callGetDeviceProperties gl.cudaGetDeviceProperties ptr device w).1) ∧
    (gl.cudaFree ≠ NULL →
      (m.callFree gl.cudaFree ptr w).1 ≠ cudaStubSuccess →
      (Linux.cudaFree m gl ptr w).ret = (m.callFree gl.cudaFree ptr w).1) ∧
    (gw.cudaGetDeviceCount ≠ NULL →
      (m.callGetDeviceCount gw.cudaGetDeviceCount ptr w).1 ≠ cudaStubSuccess →
      (Windows.cudaStubGetDeviceCount m gw ptr w).ret =
        (m.callGetDeviceCount gw.cudaGetDeviceCount ptr w).1) ∧
    (gw.cudaGetDeviceProperties ≠ NULL →
      (m.callGetDeviceProperties gw.cudaGetDeviceProperties ptr device w).1 ≠ cudaStubSuccess →
      (Windows.cudaStubGetDeviceProperties m gw ptr device w).ret =
        (m.callGetDeviceProperties gw.cudaGetDeviceProperties ptr device w).1) ∧
    (¬ (gl.force_managed_memory ≠ 0 ∧ gl.cudaMallocManaged ≠ NULL) →
      gl.cudaMalloc ≠ NULL →
      (m.callMalloc gl.cudaMalloc ptr size w).1 ≠ cudaStubSuccess →
      (Linux.cudaMalloc m gl ptr size w).ret = (m.callMalloc gl.cudaMalloc ptr size w).1) ∧
    (gl.force_managed_memory ≠ 0 ∧ gl.cudaMallocManaged ≠ NULL →
      (m.callMallocManaged gl.cudaMallocManaged ptr size 0x01 w).1 ≠ cudaStubSuccess →
      gl.cudaMalloc ≠ NULL →
      (m.callMalloc gl.cudaMalloc ptr size
        (m.callMallocManaged gl.cudaMallocManaged ptr size 0x01 w).2).1 ≠ cudaStubSuccess →
      (Linux.cudaMalloc m gl ptr size w).ret =
        (m.callMalloc gl.cudaMalloc ptr size
          (m.callMallocManaged gl.cudaMallocManaged ptr size 0x01 w).2).1) ∧
    (gl.force_managed_memory ≠ 0 ∧ gl.cudaMallocManaged ≠ NULL →
      (m.callMallocManaged gl.cudaMallocManaged ptr size 0x01 w).1 ≠ cudaStubSuccess →
      gl.cudaMalloc = NULL →
      (Linux.cudaMalloc m gl ptr size w).ret = cudaStubErrorInitializationError) := by
  refine ⟨?_, ?_, ?_, ?_, ?_, ?_, ?_, ?_⟩
  · intro h _
    simp [Linux.cudaStubGetDeviceCount, h]
  · intro h _
    simp [Linux.cudaStubGetDeviceProperties, h]
  · intro h _
    simp [Linux.cudaFree, h]
  · intro h _
    simp [Windows.cudaStubGetDeviceCount, h]
  · intro h _
    simp [Windows.cudaStubGetDeviceProperties, h]
  · intro hno hp _
    simp only [Linux.cudaMalloc, if_neg hno, Linux.cudaMalloc_plain, if_pos hp]
  · intro hyes hfail hp _
    have hne : ¬ cudaStubSuccess = (m.callMallocManaged gl.cudaMallocManaged ptr size 0x01 w).1 :=
      fun h => hfail h.symm
    simp only [Linux.cudaMalloc, if_pos hyes, if_neg hne, Linux.cudaMalloc_plain, if_pos hp]
  · intro hyes hfail hp
    have hne : ¬ cudaStubSuccess = (m.callMallocManaged gl.cudaMallocManaged ptr size 0x01 w).1 :=
      fun h => hfail h.symm
    have hp2 : ¬ gl.cudaMalloc ≠ NULL := fun h => h hp
    simp only [Linux.cudaMalloc, if_pos hyes, if_neg hne, Linux.cudaMalloc_plain, if_neg hp2]

/-- C5 as amended, at a concrete input: the properties query for the device
ordinal `5`, which the concrete runtime rejects with code `101`, returns
`101`. -/
theorem error_pass_through_amended_witness :
    Demo.linuxBound.cudaGetDeviceProperties ≠ NULL ∧
    (Demo.machine.callGetDeviceProperties Demo.linuxBound.cudaGetDeviceProperties 64 5 []).1
      ≠ cudaStubSuccess ∧
    (Linux.cudaStubGetDeviceProperties Demo.machine Demo.linuxBound 64 5 []).ret = 101 :=
  ⟨by decide, by decide,
   (error_pass_through_amended Demo.machine Demo.linuxBound Demo.windowsBound 64 0 5 []).2.1
     (by decide) (by decide)⟩

/-- C6: runtime absent.  From the zero-initialised `g_library`, when the target
library does not open (POSIX: `dlopen "libcudart.so"` fails; Windows: none of
the candidate names loads), after `cudaStubInit` every slot is `NULL` and
`force_managed_memory` is `0`, and every operation of the surface returns
`cudaStubErrorInitializationError` for every input, calling nothing and
leaving the world unchanged. -/
theorem runtime_absent {W : Type} (m : Machine W) (envL : Linux.Env) (envW : Windows.Env)
    (ptr size : Nat) (device : Int) (w : W) :
    (envL.dlopen "libcudart.so" = NULL →
      (Linux.cudaStubInit envL Linux.g_library).lib = ⟨0, NULL, NULL, NULL, NULL, NULL⟩ ∧
      Linux.cudaStubGetDeviceCount m (Linux.cudaStubInit envL Linux.g_library).lib ptr w =
        ⟨cudaStubErrorInitializationError, w, []⟩ ∧
      Linux.cudaStubGetDeviceProperties m (Linux.cudaStubInit envL Linux.g_library).lib
        ptr device w = ⟨cudaStubErrorInitializationError, w, []⟩ ∧
      Linux.cudaMalloc m (Linux.cudaStubInit envL Linux.g_library).lib ptr size w =
        ⟨cudaStubErrorInitializationError, w, []⟩ ∧
      Linux.cudaFree m (Linux.cudaStubInit envL Linux.g_library).lib ptr w =
        ⟨cudaStubErrorInitializationError, w, []⟩) ∧
    ((∀ name ∈ Windows.candidateNames, envW.LoadLibrary name = NULL) →
      (Windows.cudaStubInit envW Windows.g_library).lib = ⟨NULL, NULL⟩ ∧
      Windows.cudaStubGetDeviceCount m (Windows.cudaStubInit envW Windows.g_library).lib ptr w =
        ⟨cudaStubErrorInitializationError, w, []⟩ ∧
      Windows.cudaStubGetDeviceProperties m (Windows.cudaStubInit envW Windows.g_library).lib
        ptr device w = ⟨cudaStubErrorInitializationError, w, []⟩) := by
  constructor
  · intro h
    have hl : (Linux.cudaStubInit envL Linux.g_library).lib = ⟨0, NULL, NULL, NULL, NULL, NULL⟩ := by
      simp [Linux.cudaStubInit, h, Linux.g_library]
    rw [hl]
    simp [Linux.cudaStubGetDeviceCount, Linux.cudaStubGetDeviceProperties, Linux.cudaMalloc,
      Linux.cudaMalloc_plain, Linux.cudaFree]
  · intro h
    simp only [Windows.candidateNames, List.mem_cons, List.mem_singleton, List.not_mem_nil,
      or_false, forall_eq_or_imp, forall_eq] at h
    obtain ⟨h1, h2, h3, h4⟩ := h
    have hl : (Windows.cudaStubInit envW Windows.g_library).lib = ⟨NULL, NULL⟩ := by
      simp [Windows.cudaStubInit, h1, h2, h3, h4, Windows.g_library]
    rw [hl]
    simp [Windows.cudaStubGetDeviceCount, Windows.cudaStubGetDeviceProperties]

/-- C6 at a concrete input: in a POSIX environment where `libcudart.so` does
not open, the count query after `cudaStubInit` returns
`cudaStubErrorInitializationError` and stores nothing. -/
theorem runtime_absent_witness :
    (Demo.linuxEnv NULL Demo.allSymbols).dlopen "libcudart.so" = NULL ∧
    Linux.cudaStubGetDeviceCount Demo.machine
      (Linux.cudaStubInit (Demo.linuxEnv NULL Demo.allSymbols) Linux.g_library).lib 64 [] =
        ⟨cudaStubErrorInitializationError, [], []⟩ :=
  ⟨by decide,
   ((runtime_absent Demo.machine (Demo.linuxEnv NULL Demo.allSymbols) (Demo.windowsEnv [])
      64 1024 0 []).1 (by decide)).2.1⟩

/-- Windows `cudaStubInit` when some candidate loads: the binding record holds
what the earliest loadable name exports, and the loader calls are the
attempts on the names before it, the attempt on it, and the two symbol
lookups in its module. -/
theorem Windows.cudaStubInit_of_firstLoadable (env : Windows.Env) (g : Windows.library)
    (name : String) (h : Windows.firstLoadable env = some name) :
    env.LoadLibrary name ≠ NULL ∧
    Windows.cudaStubInit env g =
      ⟨⟨env.GetProcAddress (env.LoadLibrary name) "cudaGetDeviceCount",
        env.GetProcAddress (env.LoadLibrary name) "cudaGetDeviceProperties"⟩,
       (Windows.candidateNames.takeWhile (fun n => decide (n ≠ name))).map
           LoaderCall.LoadLibrary ++
         [LoaderCall.LoadLibrary name,
          LoaderCall.GetProcAddress (env.LoadLibrary name) "cudaGetDeviceCount",
          LoaderCall.GetProcAddress (env.LoadLibrary name) "cudaGetDeviceProperties"]⟩ := by
  by_cases h1 : env.LoadLibrary "cudart64_110.dll" = 0
  · by_cases h2 : env.LoadLibrary "cudart64_102.dll" = 0
    · by_cases h3 : env.LoadLibrary "cudart64_101.dll" = 0
      · by_cases h4 : env.LoadLibrary "cudart64_100.dll" = 0
        · simp [Windows.firstLoadable, Windows.candidateNames, List.find?, h1, h2, h3, h4] at h
        · simp [Windows.firstLoadable, Windows.candidateNames, List.find?, h1, h2, h3, h4] at h
          subst h
          refine ⟨h4, ?_⟩
          simp [Windows.cudaStubInit, Windows.candidateNames, List.takeWhile, h1, h2, h3, h4]
      · simp [Windows.firstLoadable, Windows.candidateNames, List.find?, h1, h2, h3] at h
        subst h
        refine ⟨h3, ?_⟩
        simp [Windows.cudaStubInit, Windows.candidateNames, List.takeWhile, h1, h2, h3]
    · simp [Windows.firstLoadable, Windows.candidateNames, List.find?, h1, h2] at h
      subst h
      refine ⟨h2, ?_⟩
      simp [Windows.cudaStubInit, Windows.candidateNames, List.takeWhile, h1, h2]
  · simp [Windows.firstLoadable, Windows.candidateNames, List.find?, h1] at h
    subst h
    refine ⟨h1, ?_⟩
    simp [Windows.cudaStubInit, Windows.candidateNames, List.takeWhile, h1]

/-- Windows `cudaStubInit` when no candidate loads: all four names are tried
in order and the binding record is left as it was. -/
theorem Windows.cudaStubInit_of_none (env : Windows.Env) (g : Windows.library)
    (h : Windows.firstLoadable env = none) :
    Windows.cudaStubInit env g =
      ⟨g, Windows.candidateNames.map LoaderCall.LoadLibrary⟩ := by
  simp only [Windows.firstLoadable, Windows.candidateNames, List.find?_eq_none, List.mem_cons,
    List.mem_singleton, List.not_mem_nil, or_false, forall_eq_or_imp, forall_eq,
    decide_eq_true_eq, not_not] at h
  obtain ⟨h1, h2, h3, h4⟩ := h
  simp [Windows.cudaStubInit, Windows.candidateNames, h1, h2, h3, h4]

/-- POSIX `cudaStubInit` when the library opens: every slot is overwritten
with what `dlsym` finds for its own symbol, and the policy flag becomes `1`
when the managed symbol is found and keeps its value otherwise. -/
theorem Linux.cudaStubInit_of_open (env : Linux.Env) (g : Linux.library)
    (h : env.dlopen "libcudart.so" ≠ NULL) :
    (Linux.cudaStubInit env g).lib =
      ⟨if env.dlsym (env.dlopen "libcudart.so") "cudaMallocManaged" ≠ NULL then 1
         else g.force_managed_memory,
       env.dlsym (env.dlopen "libcudart.so") "cudaMalloc",
       env.dlsym (env.dlopen "libcudart.so") "cudaFree",
       env.dlsym (env.dlopen "libcudart.so") "cudaGetDeviceCount",
       env.dlsym (env.dlopen "libcudart.so") "cudaGetDeviceProperties",
       env.dlsym (env.dlopen "libcudart.so") "cudaMallocManaged"⟩ := by
  have h0 : ¬ env.dlopen "libcudart.so" = 0 := h
  by_cases hm : env.dlsym (env.dlopen "libcudart.so") "cudaMallocManaged" = 0
  · simp [Linux.cudaStubInit, h0, hm]
  · simp [Linux.cudaStubInit, h0, hm]

/-- POSIX `cudaStubInit` when the library does not open: the binding record is
left as it was. -/
theorem Linux.cudaStubInit_of_absent (env : Linux.Env) (g : Linux.library)
    (h : env.dlopen "libcudart.so" = NULL) :
    (Linux.cudaStubInit env g).lib = g := by
  simp [Linux.cudaStubInit, h]

/-- C7: symbol independence.  POSIX: for every prior binding state and every
library that opens, after `cudaStubInit` each of the five slots holds what
`dlsym` finds for its own symbol, so it is resolved exactly when that symbol
is exported, whatever the other symbols do.  Windows: the same for the two
slots and the earliest loadable candidate.  In both variants, when the
library exports the device-count symbol but not the device-properties symbol,
`cudaStubGetDeviceCount` returns the real call's code and world (its count
included) and `cudaStubGetDeviceProperties` with ordinal `0` returns
`cudaStubErrorInitializationError`, calling nothing. -/
theorem symbol_independence {W : Type} (m : Machine W) (envL : Linux.Env) (gl : Linux.library)
    (envW : Windows.Env) (gw : Windows.library) (name : String) (count prop : Nat) (w : W) :
    (envL.dlopen "libcudart.so" ≠ NULL →
      ((Linux.cudaStubInit envL gl).lib.cudaMalloc =
          envL.dlsym (envL.dlopen "libcudart.so") "cudaMalloc" ∧
       (Linux.cudaStubInit envL gl).lib.cudaFree =
          envL.dlsym (envL.dlopen "libcudart.so") "cudaFree" ∧
       (Linux.cudaStubInit envL gl).lib.cudaGetDeviceCount =
          envL.dlsym (envL.dlopen "libcudart.so") "cudaGetDeviceCount" ∧
       (Linux.cudaStubInit envL gl).lib.cudaGetDeviceProperties =
          envL.dlsym (envL.dlopen "libcudart.so") "cudaGetDeviceProperties" ∧
       (Linux.cudaStubInit envL gl).lib.cudaMallocManaged =
          envL.dlsym (envL.dlopen "libcudart.so") "cudaMallocManaged") ∧
      (((Linux.cudaStubInit envL gl).lib.cudaMalloc ≠ NULL ↔
          envL.dlsym (envL.dlopen "libcudart.so") "cudaMalloc" ≠ NULL) ∧
       ((Linux.cudaStubInit envL gl).lib.cudaFree ≠ NULL ↔
          envL.dlsym (envL.dlopen "libcudart.so") "cudaFree" ≠ NULL) ∧
       ((Linux.cudaStubInit envL gl).lib.cudaGetDeviceCount ≠ NULL ↔
          envL.dlsym (envL.dlopen "libcudart.so") "cudaGetDeviceCount" ≠ NULL) ∧
       ((Linux.cudaStubInit envL gl).lib.cudaGetDeviceProperties ≠ NULL ↔
          envL.dlsym (envL.dlopen "libcudart.so") "cudaGetDeviceProperties" ≠ NULL) ∧
       ((Linux.cudaStubInit envL gl).lib.cudaMallocManaged ≠ NULL ↔
          envL.dlsym (envL.dlopen "libcudart.so") "cudaMallocManaged" ≠ NULL)) ∧
      (envL.dlsym (envL.dlopen "libcudart.so") "cudaGetDeviceCount" ≠ NULL →
       envL.dlsym (envL.dlopen "libcudart.so") "cudaGetDeviceProperties" = NULL →
        Linux.cudaStubGetDeviceCount m (Linux.cudaStubInit envL gl).lib count w =
          ⟨(m.callGetDeviceCount
              (envL.dlsym (envL.dlopen "libcudart.so") "cudaGetDeviceCount") count w).1,
           (m.callGetDeviceCount
              (envL.dlsym (envL.dlopen "libcudart.so") "cudaGetDeviceCount") count w).2,
           [Call.cudaGetDeviceCount
              (envL.dlsym (envL.dlopen "libcudart.so") "cudaGetDeviceCount") count]⟩ ∧
        Linux.cudaStubGetDeviceProperties m (Linux.cudaStubInit envL gl).lib prop 0 w =
          ⟨cudaStubErrorInitializationError, w, []⟩)) ∧
    (Windows.firstLoadable envW = some name →
      ((Windows.cudaStubInit envW gw).lib.cudaGetDeviceCount =
          envW.GetProcAddress (envW.LoadLibrary name) "cudaGetDeviceCount" ∧
       (Windows.cudaStubInit envW gw).lib.cudaGetDeviceProperties =
          envW.GetProcAddress (envW.LoadLibrary name) "cudaGetDeviceProperties") ∧
      (((Windows.cudaStubInit envW gw).lib.cudaGetDeviceCount ≠ NULL ↔
          envW.GetProcAddress (envW.LoadLibrary name) "cudaGetDeviceCount" ≠ NULL) ∧
       ((Windows.cudaStubInit envW gw).lib.cudaGetDeviceProperties ≠ NULL ↔
          envW.GetProcAddress (envW.LoadLibrary name) "cudaGetDeviceProperties" ≠ NULL)) ∧
      (envW.GetProcAddress (envW.LoadLibrary name) "cudaGetDeviceCount" ≠ NULL →
       envW.GetProcAddress (envW.LoadLibrary name) "cudaGetDeviceProperties" = NULL →
        Windows.cudaStubGetDeviceCount m (Windows.cudaStubInit envW gw).lib count w =
          ⟨(m.callGetDeviceCount
              (envW.GetProcAddress (envW.LoadLibrary name) "cudaGetDeviceCount") count w).1,
           (m.callGetDeviceCount
              (envW.GetProcAddress (envW.LoadLibrary name) "cudaGetDeviceCount") count w).2,
           [Call.cudaGetDeviceCount
              (envW.GetProcAddress (envW.LoadLibrary name) "cudaGetDeviceCount") count]⟩ ∧
        Windows.cudaStubGetDeviceProperties m (Windows.cudaStubInit envW gw).lib prop 0 w =
          ⟨cudaStubErrorInitializationError, w, []⟩)) := by
  constructor
  · intro h
    rw [Linux.cudaStubInit_of_open envL gl h]
    refine ⟨⟨rfl, rfl, rfl, rfl, rfl⟩, ⟨Iff.rfl, Iff.rfl, Iff.rfl, Iff.rfl, Iff.rfl⟩, ?_⟩
    intro hc hp
    simp [Linux.cudaStubGetDeviceCount, Linux.cudaStubGetDeviceProperties, hc, hp]
  · intro h
    rw [(Windows.cudaStubInit_of_firstLoadable envW gw name h).2]
    refine ⟨⟨rfl, rfl⟩, ⟨Iff.rfl, Iff.rfl⟩, ?_⟩
    intro hc hp
    simp [Windows.cudaStubGetDeviceCount, Windows.cudaStubGetDeviceProperties, hc, hp]

/-- C7 at a concrete input (end-to-end scenario 2): a POSIX library that
exports the device-count symbol only.  The count query returns success with
the count `2` stored at address `64`; the properties query for ordinal `0`
returns `cudaStubErrorInitializationError`. -/
theorem symbol_independence_witness :
    (Demo.linuxEnv 0x10 [("cudaGetDeviceCount", 0x1000)]).dlopen "libcudart.so" ≠ NULL ∧
    Linux.cudaStubGetDeviceCount Demo.machine
      (Linux.cudaStubInit (Demo.linuxEnv 0x10 [("cudaGetDeviceCount", 0x1000)])
        Linux.g_library).lib 64 [] = ⟨cudaStubSuccess, [(64, 2)], [Call.cudaGetDeviceCount 0x1000 64]⟩ ∧
    Linux.cudaStubGetDeviceProperties Demo.machine
      (Linux.cudaStubInit (Demo.linuxEnv 0x10 [("cudaGetDeviceCount", 0x1000)])
        Linux.g_library).lib 128 0 [] = ⟨cudaStubErrorInitializationError, [], []⟩ :=
  ⟨by decide,
   ((symbol_independence Demo.machine (Demo.linuxEnv 0x10 [("cudaGetDeviceCount", 0x1000)])
      Linux.g_library (Demo.windowsEnv []) Windows.g_library "" 64 128 []).1
      (by decide)).2.2 (by decide) (by decide)⟩

/-- C8: idempotence of `cudaStubInit`.  For every prior binding state and every
environment held fixed across the calls, two calls in sequence leave the same
binding record (same slots, same slot values, same `force_managed_memory`) as
one call, in the POSIX and in the Windows variant. -/
theorem cudaStubInit_idempotent (envL : Linux.Env) (gl : Linux.library)
    (envW : Windows.Env) (gw : Windows.library) :
    (Linux.cudaStubInit envL (Linux.cudaStubInit envL gl).lib).lib =
      (Linux.cudaStubInit envL gl).lib ∧
    (Windows.cudaStubInit envW (Windows.cudaStubInit envW gw).lib).lib =
      (Windows.cudaStubInit envW gw).lib := by
  constructor
  · by_cases h : envL.dlopen "libcudart.so" = NULL
    · rw [Linux.cudaStubInit_of_absent envL gl h, Linux.cudaStubInit_of_absent envL gl h]
    · rw [Linux.cudaStubInit_of_open envL _ h, Linux.cudaStubInit_of_open envL gl h]
      by_cases hm : envL.dlsym (envL.dlopen "libcudart.so") "cudaMallocManaged" = 0
      · simp [hm]
      · simp [hm]
  · cases hf : Windows.firstLoadable envW with
    | none =>
      rw [Windows.cudaStubInit_of_none envW gw hf, Windows.cudaStubInit_of_none envW gw hf]
    | some name =>
      rw [(Windows.cudaStubInit_of_firstLoadable envW _ name hf).2,
        (Windows.cudaStubInit_of_firstLoadable envW gw name hf).2]

/-- C9: Windows candidate order.  `cudaStubInit` tries `cudart64_110.dll`,
`cudart64_102.dll`, `cudart64_101.dll`, `cudart64_100.dll` in that order.
When `name` is the earliest candidate that loads, the `LoadLibrary` calls are
exactly the candidates before `name` followed by `name` (nothing later is
tried), the only other loader calls are the two lookups in the module of
`name`, and the two slots hold what that module exports.  When no candidate
loads, all four are tried in order and the record is unchanged. -/
theorem windows_candidate_order (env : Windows.Env) (g : Windows.library) :
    Windows.candidateNames =
      ["cudart64_110.dll", "cudart64_102.dll", "cudart64_101.dll", "cudart64_100.dll"] ∧
    (∀ name, Windows.firstLoadable env = some name →
      env.LoadLibrary name ≠ NULL ∧
      (Windows.cudaStubInit env g).loader =
        (Windows.candidateNames.takeWhile (fun n => decide (n ≠ name))).map
            LoaderCall.LoadLibrary ++
          [LoaderCall.LoadLibrary name,
           LoaderCall.GetProcAddress (env.LoadLibrary name) "cudaGetDeviceCount",
           LoaderCall.GetProcAddress (env.LoadLibrary name) "cudaGetDeviceProperties"] ∧
      (Windows.cudaStubInit env g).lib =
        ⟨env.GetProcAddress (env.LoadLibrary name) "cudaGetDeviceCount",
         env.GetProcAddress (env.LoadLibrary name) "cudaGetDeviceProperties"⟩) ∧
    (Windows.firstLoadable env = none →
      (Windows.cudaStubInit env g).loader =
        Windows.candidateNames.map LoaderCall.LoadLibrary ∧
      (Windows.cudaStubInit env g).lib = g) := by
  refine ⟨rfl, ?_, ?_⟩
  · intro name h
    obtain ⟨hl, hi⟩ := Windows.cudaStubInit_of_firstLoadable env g name h
    rw [hi]
    exact ⟨hl, rfl, rfl⟩
  · intro h
    rw [Windows.cudaStubInit_of_none env g h]
    exact ⟨rfl, rfl⟩

/-- C9 at a concrete input: the two newest names do not load and the two
oldest do.  The third name is the earliest loadable one; the fourth is never
tried, and the slots hold what the third module exports. -/
theorem windows_candidate_order_witness :
    Windows.firstLoadable (Demo.windowsEnv Demo.windowsModules) = some "cudart64_101.dll" ∧
    (Windows.cudaStubInit (Demo.windowsEnv Demo.windowsModules) Windows.g_library).loader =
      [LoaderCall.LoadLibrary "cudart64_110.dll", LoaderCall.LoadLibrary "cudart64_102.dll",
       LoaderCall.LoadLibrary "cudart64_101.dll",
       LoaderCall.GetProcAddress 0x20 "cudaGetDeviceCount",
       LoaderCall.GetProcAddress 0x20 "cudaGetDeviceProperties"] ∧
    (Windows.cudaStubInit (Demo.windowsEnv Demo.windowsModules) Windows.g_library).lib =
      ⟨0x1000, NULL⟩ :=
  ⟨by decide,
   ((windows_candidate_order (Demo.windowsEnv Demo.windowsModules) Windows.g_library).2.1
      "cudart64_101.dll" (by decide)).2⟩

/-- One surface call keeps the binding record in agreement with the dynamic
linker. -/
theorem Linux.step_agrees {W : Type} (m : Machine W) (p : Linux.Process W)
    (a : Linux.Action) (h : p.agrees) : (Linux.step m p a).agrees := by
  obtain ⟨hI, hN, hS⟩ := h
  cases a with
  | cudaStubInit disk =>
    cases hL : p.loaded with
    | none =>
      have hz : p.lib.force_managed_memory = 0 := hN hL
      by_cases ho : disk.dlopen "libcudart.so" = NULL
      · have hlib : (Linux.step m p (Linux.Action.cudaStubInit disk)).lib = p.lib := by
          simp only [Linux.step, hL, Linux.Env.inProcess]
          exact Linux.cudaStubInit_of_absent disk p.lib ho
        have hld : (Linux.step m p (Linux.Action.cudaStubInit disk)).loaded = none := by
          simp [Linux.step, hL, Linux.Env.load, ho]
        refine ⟨?_, ?_, ?_⟩
        · rw [hlib]; exact hI
        · intro _; rw [hlib]; exact hz
        · intro obj hobj; rw [hld] at hobj; cases hobj
      · have hlib := Linux.cudaStubInit_of_open disk p.lib ho
        have hstep : (Linux.step m p (Linux.Action.cudaStubInit disk)).lib =
            (Linux.cudaStubInit disk p.lib).lib := by
          simp only [Linux.step, hL, Linux.Env.inProcess]
        have hld : (Linux.step m p (Linux.Action.cudaStubInit disk)).loaded =
            some ⟨disk.dlopen "libcudart.so", disk.dlsym (disk.dlopen "libcudart.so")⟩ := by
          simp only [Linux.step, hL, Linux.Env.load, if_neg ho]
        refine ⟨?_, ?_, ?_⟩
        · rw [hstep, hlib]
          by_cases hm : disk.dlsym (disk.dlopen "libcudart.so") "cudaMallocManaged" = 0
          · simp [hm, hz]
          · simp [hm]
        · intro hnone; rw [hld] at hnone; cases hnone
        · intro obj hobj
          rw [hld] at hobj
          cases hobj
          refine ⟨ho, ?_⟩
          rw [hstep, hlib]
    | some obj =>
      obtain ⟨hh, hmanaged⟩ := hS obj hL
      have hopen : (disk.inProcess (some obj)).dlopen "libcudart.so" ≠ NULL := by
        simpa [Linux.Env.inProcess] using hh
      have hsym : (disk.inProcess (some obj)).dlsym
          ((disk.inProcess (some obj)).dlopen "libcudart.so") "cudaMallocManaged" =
            obj.exports "cudaMallocManaged" := by
        simp [Linux.Env.inProcess]
      have hlib := Linux.cudaStubInit_of_open (disk.inProcess (some obj)) p.lib hopen
      have hstep : (Linux.step m p (Linux.Action.cudaStubInit disk)).lib =
          (Linux.cudaStubInit (disk.inProcess (some obj)) p.lib).lib := by
        simp only [Linux.step, hL]
      have hld : (Linux.step m p (Linux.Action.cudaStubInit disk)).loaded = some obj := by
        simp only [Linux.step, hL, Linux.Env.load]
      refine ⟨?_, ?_, ?_⟩
      · rw [hstep, hlib, hsym]
        by_cases hm : obj.exports "cudaMallocManaged" = 0
        · have hz : p.lib.force_managed_memory = 0 := by
            by_contra hne
            exact hI hne (hmanaged.trans hm)
          simp [hm, hz]
        · simp [hm]
      · intro hnone; rw [hld] at hnone; cases hnone
      · intro obj2 hobj
        rw [hld] at hobj
        cases hobj
        refine ⟨hh, ?_⟩
        rw [hstep, hlib, hsym]
  | cudaMalloc devPtr size => exact ⟨hI, hN, hS⟩
  | cudaFree devPtr => exact ⟨hI, hN, hS⟩
  | cudaStubGetDeviceCount count => exact ⟨hI, hN, hS⟩
  | cudaStubGetDeviceProperties prop device => exact ⟨hI, hN, hS⟩

/-- A sequence of surface calls keeps the binding record in agreement with the
dynamic linker. -/
theorem Linux.run_agrees {W : Type} (m : Machine W) :
    ∀ (acts : List Linux.Action) (p : Linux.Process W),
      p.agrees → (Linux.run m p acts).agrees := by
  intro acts
  induction acts with
  | nil => intro p h; exact h
  | cons a rest ih =>
    intro p h
    exact ih (Linux.step m p a) (Linux.step_agrees m p a h)

/-- The process at start agrees with the dynamic linker. -/
theorem Linux.start_agrees {W : Type} (w : W) : (Linux.start w).agrees :=
  ⟨fun h => absurd rfl h, fun _ => rfl, fun _ h => by cases h⟩

/-- C10: policy-flag invariant (POSIX).  In every binding state reached from
the zero-initialised record by any sequence of `cudaStubInit` calls and public
operations, whatever is on disk at each `cudaStubInit` call (library present
or absent, any subset of symbols exported), `force_managed_memory` is nonzero
only if the managed-allocation slot is resolved. -/
theorem policy_flag_invariant {W : Type} (m : Machine W) (w : W)
    (acts : List Linux.Action) :
    (Linux.run m (Linux.start w) acts).lib.force_managed_memory ≠ 0 →
    (Linux.run m (Linux.start w) acts).lib.cudaMallocManaged ≠ NULL :=
  (Linux.run_agrees m acts (Linux.start w) (Linux.start_agrees w)).1

/-- C10 at a concrete input: the library is absent at the first
`cudaStubInit`, exports every symbol at the second, and lacks
`cudaMallocManaged` on disk at the third.  The object opened by the second
call is still the one loaded, so the session ends with the flag set and the
managed slot resolved to `0x5000`. -/
theorem policy_flag_invariant_witness :
    (Linux.run Demo.machine (Linux.start []) Demo.linuxSession).lib.force_managed_memory = 1 ∧
    (Linux.run Demo.machine (Linux.start []) Demo.linuxSession).lib.cudaMallocManaged
      = 0x5000 ∧
    (Linux.run Demo.machine (Linux.start []) Demo.linuxSession).lib.cudaMallocManaged
      ≠ NULL :=
  ⟨by decide, by decide,
   policy_flag_invariant Demo.machine [] Demo.linuxSession (by decide)⟩

end CudaStub
